import Mathlib

/-!
Verification of the resource-lifecycle layer of the heat orchestration
engine, shallowly embedded from `heat/engine/resources/resource.py` and
the resource adapters `instance.py`, `server.py` and `quantum/quantum.py`.

Python objects are modelled as explicit records; database calls and
provider calls, which can raise, are modelled as `Except`-valued inputs
supplied by the environment; `try/except` blocks become pattern matches
on those values.  Every `state_set` invocation reports the list of
events it attempted to record and the list of database errors it caught
and logged, so the theorems can speak about handler invocations, event
recording and error swallowing.
-/

namespace Heat

/-! Status strings, verbatim from `Resource` in resource.py. -/

def CREATE_IN_PROGRESS : String := "IN_PROGRESS"

def CREATE_FAILED : String := "CREATE_FAILED"

def CREATE_COMPLETE : String := "CREATE_COMPLETE"

def DELETE_IN_PROGRESS : String := "DELETE_IN_PROGRESS"

def DELETE_FAILED : String := "DELETE_FAILED"

def DELETE_COMPLETE : String := "DELETE_COMPLETE"

def UPDATE_IN_PROGRESS : String := "UPDATE_IN_PROGRESS"

def UPDATE_FAILED : String := "UPDATE_FAILED"

def UPDATE_COMPLETE : String := "UPDATE_COMPLETE"

def UPDATE_REPLACE : String := "UPDATE_REPLACE"

def UPDATE_NOT_IMPLEMENTED : String := "UPDATE_NOT_IMPLEMENTED"

/-- The in-memory fields of a `Resource` object that the lifecycle
methods read and write: `self.name`, `self.state` (None before creation),
`self.state_description`, `self.instance_id` (the physical id, None until
the provider object exists) and `self.id` (the database row id, None
until the row is stored). -/
structure Res where
  name : String
  state : Option String
  state_description : String
  instance_id : Option String
  id : Option Nat
deriving Repr, DecidableEq

/-- Behaviour of the database API during one operation: for each kind of
call, `some msg` means the call raises an exception rendering as `msg`,
`none` means it succeeds.  `new_id` is the row id that a successful
`db_api.resource_create` assigns. -/
structure DbEnv where
  update_and_save_error : Option String
  resource_create_error : Option String
  event_create_error : Option String
  new_id : Nat
deriving Repr, DecidableEq

/-- Result of `Resource._store`: the possibly updated resource and the
database errors caught and logged. -/
structure StoreOut where
  res : Res
  logged : List String
deriving Repr, DecidableEq

/-- `Resource._store`: create the resource row in the database and
record the new row id in `self.id`; any exception is caught and logged
and leaves `self.id` unchanged. -/
def Resource.store (r : Res) (db : DbEnv) : StoreOut :=
  match db.resource_create_error with
  | some e => { res := r, logged := [e] }
  | none => { res := { r with id := some db.new_id }, logged := [] }

/-- Result of `Resource._add_event` when it returns: the
`db_api.event_create` calls attempted (state, reason) and the database
errors caught and logged. -/
structure EventOut where
  attempts : List (String × String)
  logged : List String
deriving Repr, DecidableEq

/-- `Resource._add_event`: first re-runs `self.calculate_properties()`
OUTSIDE any try block (`calcProps` is its outcome; an exception here
propagates to the caller and `event_create` is never reached); then
attempts `db_api.event_create`, catching and logging a database
exception. -/
def Resource.add_event (calcProps : Except String Unit) (new_state reason : String)
    (db : DbEnv) : Except String EventOut :=
  match calcProps with
  | .error e => .error e
  | .ok _ =>
    match db.event_create_error with
    | some e => .ok { attempts := [(new_state, reason)], logged := [e] }
    | none => .ok { attempts := [(new_state, reason)], logged := [] }

/-- Result of `Resource.state_set`: the updated resource (the in-memory
fields are assigned before anything can raise, so they are updated even
when `state_set` raises), the event records attempted, the database
errors caught and logged, and the exception propagating out of
`state_set`, if any (only `_add_event`'s unprotected property
re-resolution can raise). -/
structure StateSetOut where
  res : Res
  events : List (String × String)
  logged : List String
  raised : Option String
deriving Repr, DecidableEq

/-- `Resource.state_set(new_state, reason)`: unconditionally update the
in-memory `state` and `state_description`; then try to persist (via
`update_and_save` when a row exists, via `_store` on the transition to
CREATE_IN_PROGRESS otherwise), catching and logging any database error;
finally call `_add_event` when the state actually changed — its
property re-resolution (`calcProps`) can raise, which skips the event and
propagates out of `state_set`. -/
def Resource.state_set (r : Res) (db : DbEnv) (calcProps : Except String Unit)
    (new_state reason : String) : StateSetOut :=
  let old_state := r.state
  let r1 : Res := { r with state := some new_state, state_description := reason }
  let step2 : Res × List String :=
    match r1.id with
    | some _ =>
      match db.update_and_save_error with
      | some e => (r1, [e])
      | none => (r1, [])
    | none =>
      if new_state = CREATE_IN_PROGRESS then
        let s := Resource.store r1 db
        (s.res, s.logged)
      else
        (r1, [])
  if some new_state = old_state then
    { res := step2.1, events := [], logged := step2.2, raised := none }
  else
    match Resource.add_event calcProps new_state reason db with
    | .error e =>
      { res := step2.1, events := [], logged := step2.2, raised := some e }
    | .ok ev =>
      { res := step2.1, events := ev.attempts, logged := step2.2 ++ ev.logged,
        raised := none }

/-- Result of a lifecycle operation (`create`, `update` or `delete`):
the updated resource, the Python return value (`none` models Python
`None`), whether the subclass handler was invoked, the events attempted
and the database errors caught and logged along the way, and the
exception propagating out of the method, if any (when `raised` is set
the method raised instead of returning, so `ret` is `none`). -/
structure OpOut where
  res : Res
  ret : Option String
  handlerCalled : Bool
  events : List (String × String)
  logged : List String
  raised : Option String
deriving Repr, DecidableEq

/-- `Resource.create`: no-op with a message while creation is already
requested; otherwise run `self.calculate_properties()` (`calcProps`, also
re-run inside every `_add_event` — property resolution is deterministic
within one call, so one outcome is threaded throughout) and
`self.properties.validate()` (`validate`), move to CREATE_IN_PROGRESS,
run `handle_create` when the subclass defines one (`handler = none`
models a class without the attribute, `some` its outcome), and finish
in CREATE_COMPLETE.  A raise inside the try block is caught and
answered by `state_set(CREATE_FAILED, str(ex))` then `return str(ex)`;
but `state_set` itself re-raises when `calcProps` fails, in which case the
exception escapes `create` (the final `state_set(CREATE_COMPLETE)` in
the else clause is likewise uncaught). -/
def Resource.create (r : Res) (db : DbEnv) (calcProps validate : Except String Unit)
    (handler : Option (Except String Unit)) : OpOut :=
  if r.state = some CREATE_IN_PROGRESS ∨ r.state = some CREATE_COMPLETE then
    { res := r, ret := some "Resource creation already requested",
      handlerCalled := false, events := [], logged := [], raised := none }
  else
    match calcProps with
    | .error ex =>
      let s := Resource.state_set r db calcProps CREATE_FAILED ex
      match s.raised with
      | some e =>
        { res := s.res, ret := none, handlerCalled := false,
          events := s.events, logged := s.logged, raised := some e }
      | none =>
        { res := s.res, ret := some ex, handlerCalled := false,
          events := s.events, logged := s.logged, raised := none }
    | .ok _ =>
      match validate with
      | .error ex =>
        let s := Resource.state_set r db calcProps CREATE_FAILED ex
        match s.raised with
        | some e =>
          { res := s.res, ret := none, handlerCalled := false,
            events := s.events, logged := s.logged, raised := some e }
        | none =>
          { res := s.res, ret := some ex, handlerCalled := false,
            events := s.events, logged := s.logged, raised := none }
      | .ok _ =>
        let s1 := Resource.state_set r db calcProps CREATE_IN_PROGRESS "state changed"
        match s1.raised with
        | some ex =>
          let s2 := Resource.state_set s1.res db calcProps CREATE_FAILED ex
          match s2.raised with
          | some e =>
            { res := s2.res, ret := none, handlerCalled := false,
              events := s1.events ++ s2.events,
              logged := s1.logged ++ s2.logged, raised := some e }
          | none =>
            { res := s2.res, ret := some ex, handlerCalled := false,
              events := s1.events ++ s2.events,
              logged := s1.logged ++ s2.logged, raised := none }
        | none =>
          match handler with
          | none =>
            let s2 := Resource.state_set s1.res db calcProps CREATE_COMPLETE
              "state changed"
            { res := s2.res, ret := none, handlerCalled := false,
              events := s1.events ++ s2.events,
              logged := s1.logged ++ s2.logged, raised := s2.raised }
          | some (.ok _) =>
            let s2 := Resource.state_set s1.res db calcProps CREATE_COMPLETE
              "state changed"
            { res := s2.res, ret := none, handlerCalled := true,
              events := s1.events ++ s2.events,
              logged := s1.logged ++ s2.logged, raised := s2.raised }
          | some (.error ex) =>
            let s2 := Resource.state_set s1.res db calcProps CREATE_FAILED ex
            match s2.raised with
            | some e =>
              { res := s2.res, ret := none, handlerCalled := true,
                events := s1.events ++ s2.events,
                logged := s1.logged ++ s2.logged, raised := some e }
            | none =>
              { res := s2.res, ret := some ex, handlerCalled := true,
                events := s1.events ++ s2.events,
                logged := s1.logged ++ s2.logged, raised := none }

/-- `Resource.update(json_snippet)`: no-op with a message while an
update (or the initial create) is already in progress; error message
when no snippet is given; otherwise move to UPDATE_IN_PROGRESS (this
`state_set` re-resolves the OLD template's properties in `_add_event`,
outcome `calcProps0`), swap in the new template, resolve (`calcProps1`) and
validate (`validate`) the new properties, run `handle_update` when
defined (its `Except` outcome returns Python `None` or a status
string), and set UPDATE_COMPLETE unless the handler answered
UPDATE_REPLACE, returning the handler result.  A raise inside the try
block is caught and answered by `state_set(UPDATE_FAILED, str(ex))`
then `return str(ex)` — but that `state_set` itself re-raises when the
property resolution in effect fails, in which case the exception
escapes `update`. -/
def Resource.update (r : Res) (db : DbEnv) (hasSnippet : Bool)
    (calcProps0 calcProps1 validate : Except String Unit)
    (handler : Option (Except String (Option String))) : OpOut :=
  if r.state = some CREATE_IN_PROGRESS ∨ r.state = some UPDATE_IN_PROGRESS then
    { res := r, ret := some "Resource update already requested",
      handlerCalled := false, events := [], logged := [], raised := none }
  else if hasSnippet = false then
    { res := r, ret := some "Must specify json snippet for resource update!",
      handlerCalled := false, events := [], logged := [], raised := none }
  else
    let s1 := Resource.state_set r db calcProps0 UPDATE_IN_PROGRESS "state changed"
    match s1.raised with
    | some ex =>
      let s2 := Resource.state_set s1.res db calcProps0 UPDATE_FAILED ex
      match s2.raised with
      | some e =>
        { res := s2.res, ret := none, handlerCalled := false,
          events := s1.events ++ s2.events, logged := s1.logged ++ s2.logged,
          raised := some e }
      | none =>
        { res := s2.res, ret := some ex, handlerCalled := false,
          events := s1.events ++ s2.events, logged := s1.logged ++ s2.logged,
          raised := none }
    | none =>
      match calcProps1 with
      | .error ex =>
        let s2 := Resource.state_set s1.res db calcProps1 UPDATE_FAILED ex
        match s2.raised with
        | some e =>
          { res := s2.res, ret := none, handlerCalled := false,
            events := s1.events ++ s2.events, logged := s1.logged ++ s2.logged,
            raised := some e }
        | none =>
          { res := s2.res, ret := some ex, handlerCalled := false,
            events := s1.events ++ s2.events, logged := s1.logged ++ s2.logged,
            raised := none }
      | .ok _ =>
        match validate with
        | .error ex =>
          let s2 := Resource.state_set s1.res db calcProps1 UPDATE_FAILED ex
          match s2.raised with
          | some e =>
            { res := s2.res, ret := none, handlerCalled := false,
              events := s1.events ++ s2.events,
              logged := s1.logged ++ s2.logged, raised := some e }
          | none =>
            { res := s2.res, ret := some ex, handlerCalled := false,
              events := s1.events ++ s2.events,
              logged := s1.logged ++ s2.logged, raised := none }
        | .ok _ =>
          match handler with
          | none =>
            let s2 := Resource.state_set s1.res db calcProps1 UPDATE_COMPLETE
              "state changed"
            match s2.raised with
            | some e =>
              { res := s2.res, ret := none, handlerCalled := false,
                events := s1.events ++ s2.events,
                logged := s1.logged ++ s2.logged, raised := some e }
            | none =>
              { res := s2.res, ret := some UPDATE_NOT_IMPLEMENTED,
                handlerCalled := false, events := s1.events ++ s2.events,
                logged := s1.logged ++ s2.logged, raised := none }
          | some (.error ex) =>
            let s2 := Resource.state_set s1.res db calcProps1 UPDATE_FAILED ex
            match s2.raised with
            | some e =>
              { res := s2.res, ret := none, handlerCalled := true,
                events := s1.events ++ s2.events,
                logged := s1.logged ++ s2.logged, raised := some e }
            | none =>
              { res := s2.res, ret := some ex, handlerCalled := true,
                events := s1.events ++ s2.events,
                logged := s1.logged ++ s2.logged, raised := none }
          | some (.ok result) =>
            if result = some UPDATE_REPLACE then
              { res := s1.res, ret := result, handlerCalled := true,
                events := s1.events, logged := s1.logged, raised := none }
            else
              let s2 := Resource.state_set s1.res db calcProps1 UPDATE_COMPLETE
                "state changed"
              match s2.raised with
              | some e =>
                { res := s2.res, ret := none, handlerCalled := true,
                  events := s1.events ++ s2.events,
                  logged := s1.logged ++ s2.logged, raised := some e }
              | none =>
                { res := s2.res, ret := result, handlerCalled := true,
                  events := s1.events ++ s2.events,
                  logged := s1.logged ++ s2.logged, raised := none }

/-- `Resource.delete`: silent no-op when already DELETE_COMPLETE,
message-only no-op while DELETE_IN_PROGRESS; otherwise move to
DELETE_IN_PROGRESS — this `state_set` sits outside any try block, so a
raise from its `_add_event` property re-resolution (`calcProps`) escapes
`delete` before the handler runs — then run `handle_delete` when
defined, and finish in DELETE_COMPLETE (again outside the try), or,
when the handler raised, in DELETE_FAILED with the exception text
returned (unless that `state_set` itself re-raises). -/
def Resource.delete (r : Res) (db : DbEnv) (calcProps : Except String Unit)
    (handler : Option (Except String Unit)) : OpOut :=
  if r.state = some DELETE_COMPLETE then
    { res := r, ret := none, handlerCalled := false, events := [], logged := [],
      raised := none }
  else if r.state = some DELETE_IN_PROGRESS then
    { res := r, ret := some "Resource deletion already in progress",
      handlerCalled := false, events := [], logged := [], raised := none }
  else
    let s1 := Resource.state_set r db calcProps DELETE_IN_PROGRESS "state changed"
    match s1.raised with
    | some e =>
      { res := s1.res, ret := none, handlerCalled := false,
        events := s1.events, logged := s1.logged, raised := some e }
    | none =>
      match handler with
      | none =>
        let s2 := Resource.state_set s1.res db calcProps DELETE_COMPLETE
          "state changed"
        { res := s2.res, ret := none, handlerCalled := false,
          events := s1.events ++ s2.events, logged := s1.logged ++ s2.logged,
          raised := s2.raised }
      | some (.ok _) =>
        let s2 := Resource.state_set s1.res db calcProps DELETE_COMPLETE
          "state changed"
        { res := s2.res, ret := none, handlerCalled := true,
          events := s1.events ++ s2.events, logged := s1.logged ++ s2.logged,
          raised := s2.raised }
      | some (.error ex) =>
        let s2 := Resource.state_set s1.res db calcProps DELETE_FAILED ex
        match s2.raised with
        | some e =>
          { res := s2.res, ret := none, handlerCalled := true,
            events := s1.events ++ s2.events, logged := s1.logged ++ s2.logged,
            raised := some e }
        | none =>
          { res := s2.res, ret := some ex, handlerCalled := true,
            events := s1.events ++ s2.events, logged := s1.logged ++ s2.logged,
            raised := none }

/-- Behaviour of `db_api.resource_get(ctx, id).delete()` inside
`Resource.destroy`: success, a NotFound exception, or another
exception rendering as `msg`. -/
inductive DbDelete where
  | ok
  | notFound
  | error (msg : String)
deriving Repr, DecidableEq

/-- Result of `Resource.destroy`: the updated resource, the Python
return value, whether the database-row deletion was attempted, plus the
trace and raise fields inherited from `delete`. -/
structure DestroyOut where
  res : Res
  ret : Option String
  handlerCalled : Bool
  dbDeleteAttempted : Bool
  events : List (String × String)
  logged : List String
  raised : Option String
deriving Repr, DecidableEq

/-- `Resource.destroy`: run `delete` (an exception escaping `delete`
escapes `destroy` too); when its result is truthy (a non-empty string)
return it unchanged; otherwise, when a database row exists, delete it —
NotFound is ignored, any other exception is returned — and finally
clear `self.id`. -/
def Resource.destroy (r : Res) (db : DbEnv) (calcProps : Except String Unit)
    (handler : Option (Except String Unit)) (dbDel : DbDelete) : DestroyOut :=
  let d := Resource.delete r db calcProps handler
  match d.raised with
  | some e =>
    { res := d.res, ret := none, handlerCalled := d.handlerCalled,
      dbDeleteAttempted := false, events := d.events, logged := d.logged,
      raised := some e }
  | none =>
    if d.ret.getD "" ≠ "" then
      { res := d.res, ret := d.ret, handlerCalled := d.handlerCalled,
        dbDeleteAttempted := false, events := d.events, logged := d.logged,
        raised := none }
    else
      match d.res.id with
      | none =>
        { res := d.res, ret := none, handlerCalled := d.handlerCalled,
          dbDeleteAttempted := false, events := d.events, logged := d.logged,
          raised := none }
      | some _ =>
        match dbDel with
        | .ok =>
          { res := { d.res with id := none }, ret := none,
            handlerCalled := d.handlerCalled, dbDeleteAttempted := true,
            events := d.events, logged := d.logged, raised := none }
        | .notFound =>
          { res := { d.res with id := none }, ret := none,
            handlerCalled := d.handlerCalled, dbDeleteAttempted := true,
            events := d.events, logged := d.logged, raised := none }
        | .error msg =>
          { res := d.res, ret := some msg, handlerCalled := d.handlerCalled,
            dbDeleteAttempted := true, events := d.events, logged := d.logged,
            raised := none }

/-- `Resource.FnGetRefId`: the physical `instance_id` when one has been
assigned, otherwise the logical resource name. -/
def Resource.FnGetRefId (r : Res) : String :=
  match r.instance_id with
  | some i => i
  | none => r.name

/-- `QuantumResource.FnGetRefId` (quantum/quantum.py lines 73-74; the
same body also appears in net.py, subnet.py, floatingip.py and
router.py): `return unicode(self.instance_id)` with no fallback to the
logical name — Python `unicode(None)` renders as the string "None". -/
def QuantumResource.FnGetRefId (r : Res) : String :=
  match r.instance_id with
  | some i => i
  | none => "None"

/-- `QuantumResource.handle_update` (quantum/quantum.py): always answers
the replacement-required signal. -/
def QuantumResource.handle_update : Except String (Option String) :=
  .ok (some UPDATE_REPLACE)

/-! ## Instance.handle_delete (instance.py) -/

/-- Outcome of `self.nova().servers.get(self.resource_id)`: the server
object, or the NotFound exception. -/
inductive NovaLookup where
  | found (srv : String)
  | notFound
deriving Repr, DecidableEq

/-- Result of `Instance.handle_delete`: the resulting `self.resource_id`
and the exception propagated to the caller, if any. -/
structure InstDelOut where
  resource_id : Option String
  raised : Option String
deriving Repr, DecidableEq

/-- `Instance.handle_delete`: return at once when no physical id is set;
detach the volumes; look the server up in nova — NotFound is passed
over, otherwise the server is deleted — and finally clear
`self.resource_id`.  An exception from detaching or deleting propagates
and leaves `self.resource_id` as it was. -/
def Instance.handle_delete (rid : Option String) (detach : Except String Unit)
    (lookup : NovaLookup) (deleteServer : Except String Unit) : InstDelOut :=
  match rid with
  | none => { resource_id := none, raised := none }
  | some i =>
    match detach with
    | .error e => { resource_id := some i, raised := some e }
    | .ok _ =>
      match lookup with
      | .notFound => { resource_id := none, raised := none }
      | .found _ =>
        match deleteServer with
        | .error e => { resource_id := some i, raised := some e }
        | .ok _ => { resource_id := none, raised := none }

/-! ## Create-completion polls (server.py and instance.py) -/

/-- The server object held in the create cookie: the status cached on
the Python object and the status a `server.get()` refresh would fetch
from the provider, plus the provider-side server name. -/
structure Srv where
  status : String
  freshStatus : String
  name : String
deriving Repr, DecidableEq

/-- The status the poll decides on: the cached one when it is already
ACTIVE (no refresh is made), the freshly fetched one otherwise. -/
def Srv.effStatus (s : Srv) : String :=
  if s.status = "ACTIVE" then s.status else s.freshStatus

/-- `server.status.split('(')[0]`: the status up to the first
parenthesis appended by some clouds. -/
def shortStatus (s : String) : String :=
  String.mk (s.toList.takeWhile (fun c => c ≠ '('))

/-- `Server.check_create_complete(server)` (server.py).  `deferred` is
`nova_utils.deferred_server_statuses` (nova_utils is not part of this
tree, so the list is a parameter).  Returns `some false` for a deferred
status, raises `exception.Error` (after deleting the server) on ERROR
and on any unexpected status, and on ACTIVE records the IP address and
falls off the end of the method, returning Python `None` (modelled as
`.ok none`). -/
def Server.check_create_complete (deferred : List String) (resName : String)
    (s : Srv) : Except String (Option Bool) :=
  let st := Srv.effStatus s
  if deferred.contains (shortStatus st) then
    .ok (some false)
  else if st = "ACTIVE" then
    .ok none
  else if st = "ERROR" then
    .error ("Build of server " ++ s.name ++ " failed.")
  else
    .error ("nova reported unexpected instance[" ++ resName ++ "] status["
      ++ st ++ "]")

/-- The volume-attachment TaskRunner held in the Instance create cookie.
The scheduler module is not part of this tree; modelled from the spec:
a TaskRunner exposes `started()`, `done()` and `step()`, where `done`
after `start` and the value returned by `step` say whether the task
group of volume attachments has completed. -/
structure VATask where
  started : Bool
  doneAfterStart : Bool
  stepResult : Bool
deriving Repr, DecidableEq

/-- `Instance.check_create_complete` = `Instance._check_active(cookie)`
(instance.py).  Before the volume task is started: `some false` for a
deferred status; on ACTIVE record the IP, start the volume attachments
and return whether they are already done; on ERROR delete the server
and raise; otherwise raise.  Once the volume task is started, step it
and return its result. -/
def Instance.check_create_complete (deferred : List String) (resName : String)
    (s : Srv) (va : VATask) : Except String (Option Bool) :=
  if va.started = false then
    let st := Srv.effStatus s
    if deferred.contains (shortStatus st) then
      .ok (some false)
    else if st = "ACTIVE" then
      .ok (some va.doneAfterStart)
    else if st = "ERROR" then
      .error ("Build of server " ++ s.name ++ " failed.")
    else
      .error ("nova reported unexpected instance[" ++ resName ++ "] status["
        ++ st ++ "]")
  else
    .ok (some va.stepResult)

/-! ## Dependency extraction (`Resource._add_dependencies`) -/

/-- A fragment of the parsed template: a JSON-like tree of strings,
mappings and sequences. -/
inductive Fragment where
  | str (s : String)
  | dict (entries : List (String × Fragment))
  | list (items : List Fragment)

/-- The stack as `_add_dependencies` sees it: which names are in
`self.stack.resources`, and each resource's `strict_dependency` class
attribute. -/
structure StackEnv where
  resources : List String
  strict : String → Bool

mutual

/-- `Resource._add_dependencies(deps, fragment)`: walk the fragment and
return the list of dependency targets added, in traversal order.  A
`DependsOn` or `Ref` key looks its value up in `stack.resources` (a
missing resource or a non-string value raises, modelled as `.error ()`)
and adds the edge unless it is a `Ref` to a non-strict resource; an
`Fn::GetAtt` key is skipped without recursing into its value; every
other mapping value and every sequence item is recursed into. -/
def addDependencies (env : StackEnv) : Fragment → Except Unit (List String)
  | .str _ => .ok []
  | .dict es => addDependenciesEntries env es
  | .list is => addDependenciesItems env is

/-- The mapping case of `Resource._add_dependencies`, one key/value pair
at a time. -/
def addDependenciesEntries (env : StackEnv) :
    List (String × Fragment) → Except Unit (List String)
  | [] => .ok []
  | (k, v) :: rest =>
    if k = "DependsOn" ∨ k = "Ref" then
      match v with
      | .str target =>
        if env.resources.contains target then
          let here := if k = "DependsOn" ∨ env.strict target then [target] else []
          match addDependenciesEntries env rest with
          | .error e => .error e
          | .ok more => .ok (here ++ more)
        else
          .error ()
      | _ => .error ()
    else if k = "Fn::GetAtt" then
      addDependenciesEntries env rest
    else
      match addDependencies env v with
      | .error e => .error e
      | .ok sub =>
        match addDependenciesEntries env rest with
        | .error e => .error e
        | .ok more => .ok (sub ++ more)

/-- The sequence case of `Resource._add_dependencies`, one item at a
time. -/
def addDependenciesItems (env : StackEnv) :
    List Fragment → Except Unit (List String)
  | [] => .ok []
  | f :: rest =>
    match addDependencies env f with
    | .error e => .error e
    | .ok sub =>
      match addDependenciesItems env rest with
      | .error e => .error e
      | .ok more => .ok (sub ++ more)

end

mutual

/-- Rewrite every implicit `Ref` key in a fragment into an explicit
`DependsOn` key, leaving everything else unchanged: the transformation
under which "both edge kinds participate identically" is stated. -/
def renameRef : Fragment → Fragment
  | .str s => .str s
  | .dict es => .dict (renameRefEntries es)
  | .list is => .list (renameRefItems is)

/-- `renameRef` on the entries of a mapping. -/
def renameRefEntries : List (String × Fragment) → List (String × Fragment)
  | [] => []
  | (k, v) :: rest =>
    (if k = "Ref" then "DependsOn" else k, renameRef v) :: renameRefEntries rest

/-- `renameRef` on the items of a sequence. -/
def renameRefItems : List Fragment → List Fragment
  | [] => []
  | f :: rest => renameRef f :: renameRefItems rest

end

/-! ## Sample environments used by the witnesses -/

/-- A database environment in which every call succeeds. -/
def db0 : DbEnv := { update_and_save_error := none, resource_create_error := none,
                     event_create_error := none, new_id := 1 }

/-- A database environment in which every call raises. -/
def dbBad : DbEnv := { update_and_save_error := some "db down",
                       resource_create_error := some "db down",
                       event_create_error := some "db down", new_id := 1 }

/-! ## Helper lemmas about `state_set` -/

/-- `state_set` always installs the new state, the reason, and leaves
the physical id and the name alone. -/
theorem state_set_fields (r : Res) (db : DbEnv) (calcProps : Except String Unit)
    (ns reason : String) :
    (Resource.state_set r db calcProps ns reason).res.state = some ns ∧
    (Resource.state_set r db calcProps ns reason).res.state_description = reason ∧
    (Resource.state_set r db calcProps ns reason).res.instance_id = r.instance_id ∧
    (Resource.state_set r db calcProps ns reason).res.name = r.name := by
  unfold Resource.state_set Resource.store
  dsimp only
  repeat' split
  all_goals simp_all

theorem state_set_raised_ok (r : Res) (db : DbEnv) (ns reason : String) :
    (Resource.state_set r db (.ok ()) ns reason).raised = none := by
  cases hev : db.event_create_error
  all_goals
    unfold Resource.state_set Resource.store Resource.add_event
    dsimp only
    rw [hev]
    dsimp only
    repeat' split
    all_goals simp_all

theorem state_set_events_ok (r : Res) (db : DbEnv) (ns reason : String) :
    (Resource.state_set r db (.ok ()) ns reason).events =
      if some ns = r.state then [] else [(ns, reason)] := by
  cases hev : db.event_create_error
  all_goals
    unfold Resource.state_set Resource.store Resource.add_event
    dsimp only
    rw [hev]
    dsimp only
    repeat' split
    all_goals simp_all

theorem state_set_calc_error (r : Res) (db : DbEnv) (e : String)
    (ns reason : String) (h : ¬ some ns = r.state) :
    (Resource.state_set r db (.error e) ns reason).raised = some e ∧
    (Resource.state_set r db (.error e) ns reason).events = [] := by
  unfold Resource.state_set Resource.store Resource.add_event
  dsimp only
  repeat' split
  all_goals simp_all

theorem state_set_id (r : Res) (db : DbEnv) (calcProps : Except String Unit)
    (ns reason : String) (h : ns ≠ CREATE_IN_PROGRESS) :
    (Resource.state_set r db calcProps ns reason).res.id = r.id := by
  unfold Resource.state_set Resource.store
  dsimp only
  repeat' split
  all_goals simp_all

theorem delete_res_id (r : Res) (db : DbEnv) (calcProps : Except String Unit)
    (handler : Option (Except String Unit)) :
    (Resource.delete r db calcProps handler).res.id = r.id := by
  unfold Resource.delete
  dsimp only
  repeat' split
  all_goals
    simp_all [state_set_id, CREATE_IN_PROGRESS, DELETE_IN_PROGRESS,
      DELETE_COMPLETE, DELETE_FAILED]

theorem delete_raised_ok (r : Res) (db : DbEnv)
    (handler : Option (Except String Unit)) :
    (Resource.delete r db (.ok ()) handler).raised = none := by
  unfold Resource.delete
  dsimp only
  repeat' split
  all_goals simp_all [state_set_raised_ok]

/-! ## The claims -/

/-- C1: re-invoking `create` while the state is CREATE_IN_PROGRESS or
CREATE_COMPLETE, `update` while it is CREATE_IN_PROGRESS or
UPDATE_IN_PROGRESS, or `delete` while it is DELETE_IN_PROGRESS, calls
no handler, changes nothing (state, reason, ids, events, database),
raises nothing and returns the already-requested / already-in-progress
message, whatever the property-resolution outcomes. -/
theorem c1_in_progress_reinvocation_is_noop (r : Res) (db : DbEnv)
    (cp v : Except String Unit) (hc : Option (Except String Unit))
    (hs : Bool) (cp0 cp1 vu : Except String Unit)
    (hu : Option (Except String (Option String))) :
    (r.state = some CREATE_IN_PROGRESS ∨ r.state = some CREATE_COMPLETE →
      Resource.create r db cp v hc =
        { res := r, ret := some "Resource creation already requested",
          handlerCalled := false, events := [], logged := [],
          raised := none }) ∧
    (r.state = some CREATE_IN_PROGRESS ∨ r.state = some UPDATE_IN_PROGRESS →
      Resource.update r db hs cp0 cp1 vu hu =
        { res := r, ret := some "Resource update already requested",
          handlerCalled := false, events := [], logged := [],
          raised := none }) ∧
    (r.state = some DELETE_IN_PROGRESS →
      Resource.delete r db cp hc =
        { res := r, ret := some "Resource deletion already in progress",
          handlerCalled := false, events := [], logged := [],
          raised := none }) := by
  refine ⟨fun h => ?_, fun h => ?_, fun h => ?_⟩
  · unfold Resource.create; rw [if_pos h]
  · unfold Resource.update; rw [if_pos h]
  · have hne : ¬ r.state = some DELETE_COMPLETE := by rw [h]; decide
    unfold Resource.delete; rw [if_neg hne, if_pos h]

/-- Witness for C1 at three concrete resources in the guarded states. -/
theorem c1_witness :
    Resource.create ⟨"web", some CREATE_IN_PROGRESS, "", none, none⟩ db0
        (.ok ()) (.ok ()) none =
      { res := ⟨"web", some CREATE_IN_PROGRESS, "", none, none⟩,
        ret := some "Resource creation already requested",
        handlerCalled := false, events := [], logged := [],
        raised := none } ∧
    Resource.update ⟨"web", some UPDATE_IN_PROGRESS, "", none, none⟩ db0 true
        (.ok ()) (.ok ()) (.ok ()) none =
      { res := ⟨"web", some UPDATE_IN_PROGRESS, "", none, none⟩,
        ret := some "Resource update already requested",
        handlerCalled := false, events := [], logged := [],
        raised := none } ∧
    Resource.delete ⟨"web", some DELETE_IN_PROGRESS, "", none, none⟩ db0
        (.ok ()) none =
      { res := ⟨"web", some DELETE_IN_PROGRESS, "", none, none⟩,
        ret := some "Resource deletion already in progress",
        handlerCalled := false, events := [], logged := [],
        raised := none } :=
  ⟨(c1_in_progress_reinvocation_is_noop _ db0 (.ok ()) (.ok ()) none true
      (.ok ()) (.ok ()) (.ok ()) none).1 (Or.inl rfl),
   (c1_in_progress_reinvocation_is_noop _ db0 (.ok ()) (.ok ()) none true
      (.ok ()) (.ok ()) (.ok ()) none).2.1 (Or.inr rfl),
   (c1_in_progress_reinvocation_is_noop _ db0 (.ok ()) (.ok ()) none true
      (.ok ()) (.ok ()) (.ok ()) none).2.2 rfl⟩

/-- C2: `delete` on a DELETE_COMPLETE resource is a silent no-op (no
error, no handler call, no state change, no raise);
`Instance.handle_delete` treats a NotFound provider lookup as
successful deletion; and a delete whose handler succeeds always ends in
DELETE_COMPLETE. -/
theorem c2_delete_idempotent (r : Res) (db : DbEnv) (cp : Except String Unit)
    (handler : Option (Except String Unit)) (rid : Option String)
    (del : Except String Unit) :
    (r.state = some DELETE_COMPLETE →
      Resource.delete r db cp handler =
        { res := r, ret := none, handlerCalled := false,
          events := [], logged := [], raised := none }) ∧
    (Instance.handle_delete rid (.ok ()) .notFound del =
      { resource_id := none, raised := none }) ∧
    (r.state ≠ some DELETE_COMPLETE → r.state ≠ some DELETE_IN_PROGRESS →
      (Resource.delete r db (.ok ()) (some (.ok ()))).res.state =
        some DELETE_COMPLETE ∧
      (Resource.delete r db (.ok ()) (some (.ok ()))).ret = none ∧
      (Resource.delete r db (.ok ()) (some (.ok ()))).raised = none) := by
  refine ⟨fun h => ?_, ?_, fun h1 h2 => ?_⟩
  · unfold Resource.delete; rw [if_pos h]
  · cases rid <;> rfl
  · unfold Resource.delete
    rw [if_neg h1, if_neg h2]
    simp only [state_set_raised_ok]
    exact ⟨(state_set_fields _ _ _ _ _).1, by trivial, by trivial⟩

/-- Witness for C2: a DELETE_COMPLETE resource with a handler that
would raise, a concrete NotFound lookup, and a successful delete from
CREATE_COMPLETE. -/
theorem c2_witness :
    Resource.delete ⟨"web", some DELETE_COMPLETE, "", some "i-1", some 3⟩ db0
        (.ok ()) (some (.error "boom")) =
      { res := ⟨"web", some DELETE_COMPLETE, "", some "i-1", some 3⟩,
        ret := none, handlerCalled := false, events := [], logged := [],
        raised := none } ∧
    Instance.handle_delete (some "i-1") (.ok ()) .notFound (.error "nope") =
      { resource_id := none, raised := none } ∧
    (Resource.delete ⟨"web", some CREATE_COMPLETE, "", some "i-1", some 3⟩ db0
        (.ok ()) (some (.ok ()))).res.state = some DELETE_COMPLETE :=
  ⟨(c2_delete_idempotent ⟨"web", some DELETE_COMPLETE, "", some "i-1", some 3⟩
      db0 (.ok ()) (some (.error "boom")) (some "i-1") (.error "nope")).1 rfl,
   (c2_delete_idempotent ⟨"web", some DELETE_COMPLETE, "", some "i-1", some 3⟩
      db0 (.ok ()) (some (.error "boom")) (some "i-1") (.error "nope")).2.1,
   ((c2_delete_idempotent ⟨"web", some CREATE_COMPLETE, "", some "i-1", some 3⟩
      db0 (.ok ()) (some (.ok ())) (some "i-1") (.error "nope")).2.2
      (by decide) (by decide)).1⟩

/-- C4: on a provider status of ACTIVE the Server create-poll falls off
the end of the method and returns Python None — a falsy value, not the
True the claim requires — while deferred statuses yield False, ERROR
raises, and the Instance create-poll does return True on ACTIVE once
the volume attachments are done. -/
theorem c4_server_active_poll_returns_none :
    Server.check_create_complete [] "web" ⟨"ACTIVE", "ACTIVE", "srv1"⟩ =
      .ok none ∧
    Server.check_create_complete ["BUILD"] "web" ⟨"BUILD", "BUILD", "srv1"⟩ =
      .ok (some false) ∧
    Server.check_create_complete [] "web" ⟨"ERROR", "ERROR", "srv1"⟩ =
      .error "Build of server srv1 failed." ∧
    Instance.check_create_complete [] "web" ⟨"ACTIVE", "ACTIVE", "srv1"⟩
        ⟨false, true, true⟩ = .ok (some true) :=
  ⟨rfl, rfl, rfl, rfl⟩

/-- C10 counterexample: the quantum resource classes override
`FnGetRefId` with `unicode(self.instance_id)` and no name fallback
(quantum.py:73-74, and the same body in net.py, subnet.py,
floatingip.py and router.py), so a Ref to a not-yet-created quantum
resource named "the_network" resolves to the string "None", not the
logical name — whereas the base class does fall back to the name. -/
theorem c10_counterexample :
    QuantumResource.FnGetRefId ⟨"the_network", none, "", none, none⟩ =
      "None" ∧
    "None" ≠ "the_network" ∧
    Resource.FnGetRefId ⟨"the_network", none, "", none, none⟩ =
      "the_network" :=
  ⟨rfl, by decide, rfl⟩

/-- C10 (amended): `FnGetRefId` is total and never raises; the base
`Resource.FnGetRefId` returns the physical id when one is assigned and
otherwise falls back to the logical name, while the quantum overrides
return the physical id when assigned and the string "None" (Python
`unicode(None)`) otherwise, with no name fallback. -/
theorem c10_FnGetRefId_total (r : Res) :
    (∀ i, r.instance_id = some i → Resource.FnGetRefId r = i) ∧
    (r.instance_id = none → Resource.FnGetRefId r = r.name) ∧
    (∀ i, r.instance_id = some i → QuantumResource.FnGetRefId r = i) ∧
    (r.instance_id = none → QuantumResource.FnGetRefId r = "None") := by
  unfold Resource.FnGetRefId QuantumResource.FnGetRefId
  refine ⟨fun i h => ?_, fun h => ?_, fun i h => ?_, fun h => ?_⟩ <;> rw [h]

/-- Witness for C10 at created and never-created resources, through the
base class and through the quantum override. -/
theorem c10_witness :
    Resource.FnGetRefId ⟨"web", none, "", some "i-1", none⟩ = "i-1" ∧
    Resource.FnGetRefId ⟨"db", none, "", none, none⟩ = "db" ∧
    QuantumResource.FnGetRefId ⟨"net1", none, "", some "n-9", none⟩ = "n-9" ∧
    QuantumResource.FnGetRefId ⟨"net1", none, "", none, none⟩ = "None" :=
  ⟨(c10_FnGetRefId_total ⟨"web", none, "", some "i-1", none⟩).1 "i-1" rfl,
   (c10_FnGetRefId_total ⟨"db", none, "", none, none⟩).2.1 rfl,
   (c10_FnGetRefId_total ⟨"net1", none, "", some "n-9", none⟩).2.2.1
     "n-9" rfl,
   (c10_FnGetRefId_total ⟨"net1", none, "", none, none⟩).2.2.2 rfl⟩

/-- C3 counterexample: when property resolution itself raises (message
"bad ref") during a first create, the except block's
`state_set(CREATE_FAILED, str(ex))` re-runs `calculate_properties`
inside `_add_event` outside any try, which re-raises: `create`
propagates the exception instead of returning the message — though the
in-memory state and reason are still set. -/
theorem c3_counterexample :
    (Resource.create ⟨"web", none, "", none, none⟩ db0 (.error "bad ref")
        (.ok ()) none).ret = none ∧
    (Resource.create ⟨"web", none, "", none, none⟩ db0 (.error "bad ref")
        (.ok ()) none).raised = some "bad ref" ∧
    (Resource.create ⟨"web", none, "", none, none⟩ db0 (.error "bad ref")
        (.ok ()) none).res.state = some CREATE_FAILED :=
  ⟨rfl, rfl, rfl⟩

/-- C3 (amended): whenever property validation or a lifecycle handler
raises during create, update or delete (past the no-op guards), the
operation terminates and the resource is set to the corresponding
`*_FAILED` state with the exception message as the recorded reason.
The same message is returned to the caller when the failure event can
be recorded — i.e. for `properties.validate` failures and handler
failures; but when `calculate_properties` itself was the failure and
the `*_FAILED` state is a genuine state change, its re-run inside
`_add_event` re-raises, and the operation propagates that exception
instead of returning the message. -/
theorem c3_exception_sets_failed_state (r : Res) (db : DbEnv) (m : String)
    (hc : Option (Except String Unit))
    (hu : Option (Except String (Option String)))
    (vu : Except String Unit) :
    (¬(r.state = some CREATE_IN_PROGRESS ∨ r.state = some CREATE_COMPLETE) →
      ((Resource.create r db (.ok ()) (.error m) hc).res.state =
          some CREATE_FAILED ∧
       (Resource.create r db (.ok ()) (.error m) hc).res.state_description
          = m ∧
       (Resource.create r db (.ok ()) (.error m) hc).ret = some m ∧
       (Resource.create r db (.ok ()) (.error m) hc).raised = none) ∧
      ((Resource.create r db (.ok ()) (.ok ()) (some (.error m))).res.state =
          some CREATE_FAILED ∧
       (Resource.create r db (.ok ()) (.ok ())
          (some (.error m))).res.state_description = m ∧
       (Resource.create r db (.ok ()) (.ok ()) (some (.error m))).ret =
          some m ∧
       (Resource.create r db (.ok ()) (.ok ()) (some (.error m))).raised =
          none)) ∧
    (¬(r.state = some CREATE_IN_PROGRESS ∨ r.state = some CREATE_COMPLETE) →
      r.state ≠ some CREATE_FAILED →
      (Resource.create r db (.error m) vu hc).res.state =
          some CREATE_FAILED ∧
      (Resource.create r db (.error m) vu hc).res.state_description = m ∧
      (Resource.create r db (.error m) vu hc).ret = none ∧
      (Resource.create r db (.error m) vu hc).raised = some m) ∧
    (¬(r.state = some CREATE_IN_PROGRESS ∨ r.state = some UPDATE_IN_PROGRESS) →
      ((Resource.update r db true (.ok ()) (.ok ()) (.error m) hu).res.state =
          some UPDATE_FAILED ∧
       (Resource.update r db true (.ok ()) (.ok ())
          (.error m) hu).res.state_description = m ∧
       (Resource.update r db true (.ok ()) (.ok ()) (.error m) hu).ret =
          some m ∧
       (Resource.update r db true (.ok ()) (.ok ()) (.error m) hu).raised =
          none) ∧
      ((Resource.update r db true (.ok ()) (.ok ()) (.ok ())
          (some (.error m))).res.state = some UPDATE_FAILED ∧
       (Resource.update r db true (.ok ()) (.ok ()) (.ok ())
          (some (.error m))).res.state_description = m ∧
       (Resource.update r db true (.ok ()) (.ok ()) (.ok ())
          (some (.error m))).ret = some m ∧
       (Resource.update r db true (.ok ()) (.ok ()) (.ok ())
          (some (.error m))).raised = none)) ∧
    (¬(r.state = some CREATE_IN_PROGRESS ∨ r.state = some UPDATE_IN_PROGRESS) →
      (Resource.update r db true (.ok ()) (.error m) vu hu).res.state =
          some UPDATE_FAILED ∧
      (Resource.update r db true (.ok ()) (.error m) vu
          hu).res.state_description = m ∧
      (Resource.update r db true (.ok ()) (.error m) vu hu).ret = none ∧
      (Resource.update r db true (.ok ()) (.error m) vu hu).raised =
          some m) ∧
    (r.state ≠ some DELETE_COMPLETE → r.state ≠ some DELETE_IN_PROGRESS →
      (Resource.delete r db (.ok ()) (some (.error m))).res.state =
          some DELETE_FAILED ∧
      (Resource.delete r db (.ok ()) (some (.error m))).res.state_description
          = m ∧
      (Resource.delete r db (.ok ()) (some (.error m))).ret = some m ∧
      (Resource.delete r db (.ok ()) (some (.error m))).raised = none) := by
  refine ⟨fun h => ?_, fun h hcf => ?_, fun h => ?_, fun h => ?_,
    fun h1 h2 => ?_⟩
  · simp only [Resource.create, if_neg h, state_set_raised_ok]
    exact ⟨⟨(state_set_fields _ _ _ _ _).1, (state_set_fields _ _ _ _ _).2.1,
        by trivial, by trivial⟩,
      ⟨(state_set_fields _ _ _ _ _).1, (state_set_fields _ _ _ _ _).2.1,
        by trivial, by trivial⟩⟩
  · simp only [Resource.create, if_neg h,
      (state_set_calc_error r db m CREATE_FAILED m (Ne.symm hcf)).1]
    exact ⟨(state_set_fields _ _ _ _ _).1, (state_set_fields _ _ _ _ _).2.1,
      by trivial, by trivial⟩
  · simp only [Resource.update, if_neg h, state_set_raised_ok]
    exact ⟨⟨(state_set_fields _ _ _ _ _).1, (state_set_fields _ _ _ _ _).2.1,
        by trivial, by trivial⟩,
      ⟨(state_set_fields _ _ _ _ _).1, (state_set_fields _ _ _ _ _).2.1,
        by trivial, by trivial⟩⟩
  · have hs1 : (Resource.state_set r db (.ok ()) UPDATE_IN_PROGRESS
        "state changed").res.state = some UPDATE_IN_PROGRESS :=
      (state_set_fields _ _ _ _ _).1
    have hne : ¬ some UPDATE_FAILED =
        (Resource.state_set r db (.ok ()) UPDATE_IN_PROGRESS
          "state changed").res.state := by
      rw [hs1]; decide
    simp only [Resource.update, if_neg h, state_set_raised_ok,
      (state_set_calc_error _ db m UPDATE_FAILED m hne).1]
    exact ⟨(state_set_fields _ _ _ _ _).1, (state_set_fields _ _ _ _ _).2.1,
      by trivial, by trivial⟩
  · simp only [Resource.delete, if_neg h1, if_neg h2, state_set_raised_ok]
    exact ⟨(state_set_fields _ _ _ _ _).1, (state_set_fields _ _ _ _ _).2.1,
      by trivial, by trivial⟩

/-- Witness for C3: a validation failure, handler failures, and a
property-resolution failure, on fresh and CREATE_COMPLETE resources. -/
theorem c3_witness :
    (Resource.create ⟨"web", none, "", none, none⟩ db0 (.ok ())
        (.error "bad prop") none).res.state = some CREATE_FAILED ∧
    (Resource.create ⟨"web", none, "", none, none⟩ db0 (.ok ()) (.ok ())
        (some (.error "no image"))).ret = some "no image" ∧
    (Resource.create ⟨"web", none, "", none, none⟩ db0 (.error "bad ref")
        (.ok ()) none).raised = some "bad ref" ∧
    (Resource.update ⟨"web", some CREATE_COMPLETE, "", some "i-1", some 2⟩ db0
        true (.ok ()) (.ok ()) (.ok ())
        (some (.error "resize failed"))).res.state_description =
      "resize failed" ∧
    (Resource.delete ⟨"web", some CREATE_COMPLETE, "", some "i-1", some 2⟩ db0
        (.ok ()) (some (.error "in use"))).res.state = some DELETE_FAILED :=
  ⟨(((c3_exception_sets_failed_state ⟨"web", none, "", none, none⟩ db0
      "bad prop" none none (.ok ())).1 (by decide)).1).1,
   (((c3_exception_sets_failed_state ⟨"web", none, "", none, none⟩ db0
      "no image" none none (.ok ())).1 (by decide)).2).2.2.1,
   ((c3_exception_sets_failed_state ⟨"web", none, "", none, none⟩ db0
      "bad ref" none none (.ok ())).2.1 (by decide) (by decide)).2.2.2,
   ((((c3_exception_sets_failed_state
      ⟨"web", some CREATE_COMPLETE, "", some "i-1", some 2⟩ db0
      "resize failed" none none (.ok ())).2.2.1 (by decide)).2).2.1),
   ((c3_exception_sets_failed_state
      ⟨"web", some CREATE_COMPLETE, "", some "i-1", some 2⟩ db0
      "in use" none none (.ok ())).2.2.2.2 (by decide) (by decide)).1⟩

/-- C6: a handler answering UPDATE_REPLACE makes `update` return that
signal without setting UPDATE_COMPLETE (the state stays
UPDATE_IN_PROGRESS); any other non-raising handler result sets
UPDATE_COMPLETE and is returned; `QuantumResource.handle_update`
always answers UPDATE_REPLACE. -/
theorem c6_update_replace_signal (r : Res) (db : DbEnv) (res : Option String)
    (h : ¬(r.state = some CREATE_IN_PROGRESS ∨
      r.state = some UPDATE_IN_PROGRESS)) :
    ((Resource.update r db true (.ok ()) (.ok ()) (.ok ())
        (some (.ok (some UPDATE_REPLACE)))).ret = some UPDATE_REPLACE ∧
     (Resource.update r db true (.ok ()) (.ok ()) (.ok ())
        (some (.ok (some UPDATE_REPLACE)))).res.state =
       some UPDATE_IN_PROGRESS) ∧
    (res ≠ some UPDATE_REPLACE →
      (Resource.update r db true (.ok ()) (.ok ()) (.ok ())
        (some (.ok res))).res.state = some UPDATE_COMPLETE ∧
      (Resource.update r db true (.ok ()) (.ok ()) (.ok ())
        (some (.ok res))).ret = res) ∧
    QuantumResource.handle_update = .ok (some UPDATE_REPLACE) := by
  refine ⟨⟨?_, ?_⟩, fun hres => ⟨?_, ?_⟩, rfl⟩
  · simp only [Resource.update, if_neg h, state_set_raised_ok]
    trivial
  · simp only [Resource.update, if_neg h, state_set_raised_ok]
    exact (state_set_fields _ _ _ _ _).1
  · simp only [Resource.update, if_neg h, state_set_raised_ok, if_neg hres]
    exact (state_set_fields _ _ _ _ _).1
  · simp only [Resource.update, if_neg h, state_set_raised_ok, if_neg hres]
    trivial

/-- Witness for C6: the Quantum handler on a CREATE_COMPLETE resource
versus a plain in-place update result. -/
theorem c6_witness :
    (Resource.update ⟨"net", some CREATE_COMPLETE, "", some "n-1", some 2⟩ db0
        true (.ok ()) (.ok ()) (.ok ())
        (some (.ok (some UPDATE_REPLACE)))).ret = some UPDATE_REPLACE ∧
    (Resource.update ⟨"net", some CREATE_COMPLETE, "", some "n-1", some 2⟩ db0
        true (.ok ()) (.ok ()) (.ok ()) (some (.ok none))).res.state =
      some UPDATE_COMPLETE :=
  ⟨((c6_update_replace_signal
      ⟨"net", some CREATE_COMPLETE, "", some "n-1", some 2⟩ db0 none
      (by decide)).1).1,
   (((c6_update_replace_signal
      ⟨"net", some CREATE_COMPLETE, "", some "n-1", some 2⟩ db0 none
      (by decide)).2.1) (by decide)).1⟩

/-- C7: failures keep the physical id: `state_set` never touches
`instance_id` (whatever the property-resolution outcome); a failed
create, update or delete leaves `instance_id` exactly as it was while
ending in the `*_FAILED` state with the failure reason;
`Instance.handle_delete` leaves `resource_id` unchanged when it raises
and clears it only on success. -/
theorem c7_failure_keeps_physical_id (r : Res) (db : DbEnv) (m : String)
    (cp : Except String Unit) (ns reason : String) (rid : Option String)
    (detach : Except String Unit) (lookup : NovaLookup)
    (del : Except String Unit) :
    ((Resource.state_set r db cp ns reason).res.instance_id =
      r.instance_id) ∧
    (¬(r.state = some CREATE_IN_PROGRESS ∨ r.state = some CREATE_COMPLETE) →
      (Resource.create r db (.ok ()) (.ok ())
          (some (.error m))).res.instance_id = r.instance_id ∧
      (Resource.create r db (.ok ()) (.ok ()) (some (.error m))).res.state =
          some CREATE_FAILED ∧
      (Resource.create r db (.ok ()) (.ok ())
          (some (.error m))).res.state_description = m) ∧
    (¬(r.state = some CREATE_IN_PROGRESS ∨ r.state = some UPDATE_IN_PROGRESS) →
      (Resource.update r db true (.ok ()) (.ok ()) (.ok ())
          (some (.error m))).res.instance_id = r.instance_id ∧
      (Resource.update r db true (.ok ()) (.ok ()) (.ok ())
          (some (.error m))).res.state = some UPDATE_FAILED) ∧
    (r.state ≠ some DELETE_COMPLETE → r.state ≠ some DELETE_IN_PROGRESS →
      (Resource.delete r db (.ok ()) (some (.error m))).res.instance_id =
          r.instance_id ∧
      (Resource.delete r db (.ok ()) (some (.error m))).res.state =
          some DELETE_FAILED) ∧
    ((Instance.handle_delete rid detach lookup del).raised ≠ none →
      (Instance.handle_delete rid detach lookup del).resource_id = rid) ∧
    (∀ i, rid = some i →
      (Instance.handle_delete rid detach lookup del).resource_id = none →
      (Instance.handle_delete rid detach lookup del).raised = none) := by
  refine ⟨(state_set_fields _ _ _ _ _).2.2.1, fun h => ?_, fun h => ?_,
    fun h1 h2 => ?_, ?_, ?_⟩
  · simp only [Resource.create, if_neg h, state_set_raised_ok]
    exact ⟨((state_set_fields _ _ _ _ _).2.2.1).trans
        (state_set_fields _ _ _ _ _).2.2.1,
      (state_set_fields _ _ _ _ _).1, (state_set_fields _ _ _ _ _).2.1⟩
  · simp only [Resource.update, if_neg h, state_set_raised_ok]
    exact ⟨((state_set_fields _ _ _ _ _).2.2.1).trans
        (state_set_fields _ _ _ _ _).2.2.1,
      (state_set_fields _ _ _ _ _).1⟩
  · simp only [Resource.delete, if_neg h1, if_neg h2, state_set_raised_ok]
    exact ⟨((state_set_fields _ _ _ _ _).2.2.1).trans
        (state_set_fields _ _ _ _ _).2.2.1,
      (state_set_fields _ _ _ _ _).1⟩
  · unfold Instance.handle_delete
    cases rid <;> cases detach <;> cases lookup <;> cases del <;> simp_all
  · unfold Instance.handle_delete
    intro i hi
    cases rid <;> cases detach <;> cases lookup <;> cases del <;> simp_all

/-- Witness for C7: a failed delete on a created resource keeps the
physical id, and a failed provider delete keeps `resource_id`. -/
theorem c7_witness :
    (Resource.delete ⟨"vm", some CREATE_COMPLETE, "", some "i-7", some 4⟩ db0
        (.ok ()) (some (.error "timeout"))).res.instance_id = some "i-7" ∧
    (Instance.handle_delete (some "i-7") (.ok ()) (.found "srv")
        (.error "timeout")).resource_id = some "i-7" :=
  ⟨((c7_failure_keeps_physical_id
      ⟨"vm", some CREATE_COMPLETE, "", some "i-7", some 4⟩ db0 "timeout"
      (.ok ()) "s" "r" (some "i-7") (.ok ()) (.found "srv")
      (.error "timeout")).2.2.2.1 (by decide) (by decide)).1,
   (c7_failure_keeps_physical_id
      ⟨"vm", some CREATE_COMPLETE, "", some "i-7", some 4⟩ db0 "timeout"
      (.ok ()) "s" "r" (some "i-7") (.ok ()) (.found "srv")
      (.error "timeout")).2.2.2.2.1 (by decide)⟩

/-- C8 counterexample: on a genuine state transition with a failing
property re-resolution, `state_set` records no event and propagates the
exception to its caller — refuting both the event-on-every-transition
part and the never-propagates part of the claim. -/
theorem c8_counterexample :
    (Resource.state_set ⟨"web", some CREATE_COMPLETE, "", some "i-1", some 2⟩
      db0 (.error "bad ref") DELETE_IN_PROGRESS "state changed").events =
      [] ∧
    (Resource.state_set ⟨"web", some CREATE_COMPLETE, "", some "i-1", some 2⟩
      db0 (.error "bad ref") DELETE_IN_PROGRESS "state changed").raised =
      some "bad ref" ∧
    some DELETE_IN_PROGRESS ≠
      (⟨"web", some CREATE_COMPLETE, "", some "i-1", some 2⟩ : Res).state :=
  ⟨rfl, rfl, by decide⟩

/-- C8 (amended): every `state_set` call updates the in-memory state
and reason unconditionally; every database failure (persisting via
`update_and_save`, storing via `_store`, recording via `event_create`)
is caught, logged and never propagated; a state-change event is
attempted exactly when the new state differs from the old one, provided
the property re-resolution inside `_add_event` succeeds — when it
raises on a state change, the event is skipped and that exception (and
only that one) propagates out of `state_set`, with the in-memory fields
already updated. -/
theorem c8_state_set_best_effort (r : Res) (db : DbEnv)
    (cp : Except String Unit) (ns reason : String) :
    (Resource.state_set r db cp ns reason).res.state = some ns ∧
    (Resource.state_set r db cp ns reason).res.state_description = reason ∧
    ((Resource.state_set r db (.ok ()) ns reason).events =
      if some ns = r.state then [] else [(ns, reason)]) ∧
    ((Resource.state_set r db (.ok ()) ns reason).raised = none) ∧
    (∀ e, cp = .error e → ¬ some ns = r.state →
      (Resource.state_set r db cp ns reason).events = [] ∧
      (Resource.state_set r db cp ns reason).raised = some e) ∧
    (∀ e i, db.update_and_save_error = some e → r.id = some i →
      e ∈ (Resource.state_set r db cp ns reason).logged) ∧
    (∀ e, db.resource_create_error = some e → r.id = none →
      ns = CREATE_IN_PROGRESS →
      e ∈ (Resource.state_set r db cp ns reason).logged) ∧
    (∀ e, db.event_create_error = some e → cp = .ok () →
      ¬ some ns = r.state →
      e ∈ (Resource.state_set r db cp ns reason).logged) := by
  refine ⟨(state_set_fields _ _ _ _ _).1, (state_set_fields _ _ _ _ _).2.1,
    state_set_events_ok _ _ _ _, state_set_raised_ok _ _ _ _,
    ?_, ?_, ?_, ?_⟩
  · intro e he hne
    subst he
    exact ⟨(state_set_calc_error _ _ _ _ _ hne).2,
      (state_set_calc_error _ _ _ _ _ hne).1⟩
  · intro e i he hi
    unfold Resource.state_set Resource.store Resource.add_event
    dsimp only
    rw [hi, he]
    dsimp only
    repeat' split
    all_goals simp_all
  · intro e he hi hns
    subst hns
    unfold Resource.state_set Resource.store Resource.add_event
    dsimp only
    rw [hi, he]
    dsimp only
    repeat' split
    all_goals simp_all
  · intro e he hcp hne
    subst hcp
    unfold Resource.state_set Resource.store Resource.add_event
    dsimp only
    rw [he]
    dsimp only
    repeat' split
    all_goals simp_all

/-- Witness for C8: with every database call failing the in-memory
state still changes and the errors are logged, and a concrete failing
property re-resolution on a state change propagates. -/
theorem c8_witness :
    "db down" ∈ (Resource.state_set
      ⟨"web", some CREATE_COMPLETE, "", some "i-1", some 2⟩ dbBad (.ok ())
      DELETE_IN_PROGRESS "state changed").logged ∧
    "db down" ∈ (Resource.state_set ⟨"web", none, "", none, none⟩ dbBad
      (.ok ()) CREATE_IN_PROGRESS "state changed").logged ∧
    (Resource.state_set ⟨"web", some CREATE_COMPLETE, "", some "i-1", some 2⟩
      dbBad (.ok ()) DELETE_IN_PROGRESS "state changed").res.state =
      some DELETE_IN_PROGRESS ∧
    (Resource.state_set ⟨"web", some CREATE_COMPLETE, "", some "i-1", some 2⟩
      db0 (.error "bad ref") DELETE_IN_PROGRESS "state changed").raised =
      some "bad ref" :=
  ⟨(c8_state_set_best_effort
      ⟨"web", some CREATE_COMPLETE, "", some "i-1", some 2⟩ dbBad (.ok ())
      DELETE_IN_PROGRESS "state changed").2.2.2.2.2.1 "db down" 2 rfl rfl,
   (c8_state_set_best_effort ⟨"web", none, "", none, none⟩ dbBad (.ok ())
      CREATE_IN_PROGRESS "state changed").2.2.2.2.2.2.1 "db down" rfl rfl
      rfl,
   (c8_state_set_best_effort
      ⟨"web", some CREATE_COMPLETE, "", some "i-1", some 2⟩ dbBad (.ok ())
      DELETE_IN_PROGRESS "state changed").1,
   ((c8_state_set_best_effort
      ⟨"web", some CREATE_COMPLETE, "", some "i-1", some 2⟩ db0
      (.error "bad ref") DELETE_IN_PROGRESS "state changed").2.2.2.2.1
      "bad ref" rfl (by decide)).2⟩

/-- C9 counterexample: a delete handler raising an exception whose
message renders as the empty string makes `delete` return the error
string \"\", yet `destroy` does not return it — Python truthiness
treats it as success, so the database row is deleted and the id is
cleared even though the delete failed (the resource is in
DELETE_FAILED). -/
theorem c9_counterexample :
    (Resource.delete ⟨"web", some CREATE_COMPLETE, "", some "i-9", some 5⟩ db0
        (.ok ()) (some (.error ""))).ret = some "" ∧
    (Resource.delete ⟨"web", some CREATE_COMPLETE, "", some "i-9", some 5⟩ db0
        (.ok ()) (some (.error ""))).res.state = some DELETE_FAILED ∧
    (Resource.destroy ⟨"web", some CREATE_COMPLETE, "", some "i-9", some 5⟩
        db0 (.ok ()) (some (.error "")) .ok).ret = none ∧
    (Resource.destroy ⟨"web", some CREATE_COMPLETE, "", some "i-9", some 5⟩
        db0 (.ok ()) (some (.error "")) .ok).res.id = none ∧
    (Resource.destroy ⟨"web", some CREATE_COMPLETE, "", some "i-9", some 5⟩
        db0 (.ok ()) (some (.error "")) .ok).dbDeleteAttempted = true :=
  ⟨rfl, rfl, rfl, rfl, rfl⟩

/-- C9 (amended): `destroy` propagates the result of `delete` only when
it is truthy, i.e. a non-empty string: in that case it returns the
error, attempts no database-row deletion and leaves the id unchanged;
and for a resource holding a row id, the id is cleared to None exactly
when `delete` returned no non-empty error and the row deletion
succeeded or the row was already missing (NotFound). -/
theorem c9_destroy_truthy_contract (r : Res) (db : DbEnv)
    (handler : Option (Except String Unit)) (dbDel : DbDelete) :
    (∀ m, m ≠ "" → (Resource.delete r db (.ok ()) handler).ret = some m →
      (Resource.destroy r db (.ok ()) handler dbDel).ret = some m ∧
      (Resource.destroy r db (.ok ()) handler dbDel).dbDeleteAttempted =
        false ∧
      (Resource.destroy r db (.ok ()) handler dbDel).res.id = r.id) ∧
    (∀ i, r.id = some i →
      ((Resource.destroy r db (.ok ()) handler dbDel).res.id = none ↔
        ((Resource.delete r db (.ok ()) handler).ret.getD "" = "" ∧
         (dbDel = .ok ∨ dbDel = .notFound)))) := by
  constructor
  · intro m hm hret
    unfold Resource.destroy
    dsimp only
    simp only [delete_raised_ok]
    rw [hret]
    rw [if_pos (by simpa using hm)]
    exact ⟨rfl, rfl, delete_res_id r db (.ok ()) handler⟩
  · intro i hid
    have hdid := delete_res_id r db (.ok ()) handler
    unfold Resource.destroy
    dsimp only
    simp only [delete_raised_ok]
    rw [hdid, hid]
    cases hret : (Resource.delete r db (.ok ()) handler).ret with
    | none => cases dbDel <;> simp [hdid, hid]
    | some m =>
      by_cases hm : m = ""
      · subst hm; cases dbDel <;> simp [hdid, hid]
      · simp [hm, hdid, hid]

/-- Witness for C9 (amended): a delete failing with a non-empty message
leaves the row and id in place; a clean delete with a missing row still
clears the id. -/
theorem c9_witness :
    ((Resource.destroy ⟨"web", some CREATE_COMPLETE, "", some "i-9", some 5⟩
        db0 (.ok ()) (some (.error "boom")) .ok).ret = some "boom" ∧
     (Resource.destroy ⟨"web", some CREATE_COMPLETE, "", some "i-9", some 5⟩
        db0 (.ok ()) (some (.error "boom")) .ok).dbDeleteAttempted = false ∧
     (Resource.destroy ⟨"web", some CREATE_COMPLETE, "", some "i-9", some 5⟩
        db0 (.ok ()) (some (.error "boom")) .ok).res.id = some 5) ∧
    (Resource.destroy ⟨"web", some CREATE_COMPLETE, "", some "i-9", some 5⟩
        db0 (.ok ()) (some (.ok ())) .notFound).res.id = none :=
  ⟨(c9_destroy_truthy_contract
      ⟨"web", some CREATE_COMPLETE, "", some "i-9", some 5⟩ db0
      (some (.error "boom")) .ok).1 "boom" (by decide) rfl,
   ((c9_destroy_truthy_contract
      ⟨"web", some CREATE_COMPLETE, "", some "i-9", some 5⟩ db0
      (some (.ok ())) .notFound).2 5 rfl).mpr ⟨rfl, Or.inr rfl⟩⟩

mutual

theorem renameRef_addDependencies (env : StackEnv)
    (h : ∀ n, env.strict n = true) :
    ∀ f : Fragment, addDependencies env (renameRef f) = addDependencies env f
  | .str _ => rfl
  | .dict es => renameRef_addDependenciesEntries env h es
  | .list is => renameRef_addDependenciesItems env h is

theorem renameRef_addDependenciesEntries (env : StackEnv)
    (h : ∀ n, env.strict n = true) :
    ∀ es : List (String × Fragment),
      addDependenciesEntries env (renameRefEntries es) =
        addDependenciesEntries env es
  | [] => rfl
  | (k, v) :: rest => by
    have ih := renameRef_addDependenciesEntries env h rest
    by_cases hk : k = "Ref"
    · subst hk
      cases v with
      | str target =>
        simp [renameRefEntries, renameRef, addDependenciesEntries, h target, ih]
      | dict es2 =>
        simp [renameRefEntries, renameRef, addDependenciesEntries]
      | list is2 =>
        simp [renameRefEntries, renameRef, addDependenciesEntries]
    · have ihv := renameRef_addDependencies env h v
      by_cases hd : k = "DependsOn"
      · subst hd
        cases v with
        | str target =>
          simp [renameRefEntries, renameRef, addDependenciesEntries, ih]
        | dict es2 =>
          simp [renameRefEntries, renameRef, addDependenciesEntries]
        | list is2 =>
          simp [renameRefEntries, renameRef, addDependenciesEntries]
      · by_cases hg : k = "Fn::GetAtt"
        · subst hg
          simp [renameRefEntries, addDependenciesEntries, ih]
        · simp [renameRefEntries, addDependenciesEntries, hk, hd, hg, ih, ihv]

theorem renameRef_addDependenciesItems (env : StackEnv)
    (h : ∀ n, env.strict n = true) :
    ∀ is : List Fragment,
      addDependenciesItems env (renameRefItems is) =
        addDependenciesItems env is
  | [] => rfl
  | f :: rest => by
    have ihf := renameRef_addDependencies env h f
    have ih := renameRef_addDependenciesItems env h rest
    simp [renameRefItems, addDependenciesItems, ihf, ih]

end


/-- C5: on a stack whose resource classes are all strict (as in this
tree, where `strict_dependency = True` is never overridden), rewriting
every implicit `Ref` key anywhere in a fragment into an explicit
`DependsOn` key leaves the extracted dependency edges unchanged — the
two kinds contribute identically, recursing through nested mappings and
sequences — while an `Fn::GetAtt` entry contributes nothing at all. -/
theorem c5_ref_dependson_identical_getatt_ignored (env : StackEnv)
    (h : ∀ n, env.strict n = true) (f v : Fragment)
    (rest : List (String × Fragment)) :
    addDependencies env (renameRef f) = addDependencies env f ∧
    addDependenciesEntries env (("Fn::GetAtt", v) :: rest) =
      addDependenciesEntries env rest :=
  ⟨renameRef_addDependencies env h f, by simp [addDependenciesEntries]⟩

/-- Witness for C5 on a concrete two-resource fragment. -/
theorem c5_witness :
    addDependencies ⟨["a", "b"], fun _ => true⟩
        (renameRef (.dict [("Ref", .str "a"),
          ("Prop", .list [.dict [("DependsOn", .str "b")]])])) =
      addDependencies ⟨["a", "b"], fun _ => true⟩
        (.dict [("Ref", .str "a"),
          ("Prop", .list [.dict [("DependsOn", .str "b")]])]) ∧
    addDependenciesEntries ⟨["a", "b"], fun _ => true⟩
        [("Fn::GetAtt", .dict [("Ref", .str "a")])] =
      addDependenciesEntries ⟨["a", "b"], fun _ => true⟩ [] :=
  ⟨(c5_ref_dependson_identical_getatt_ignored ⟨["a", "b"], fun _ => true⟩
      (fun _ => rfl) (.dict [("Ref", .str "a"),
        ("Prop", .list [.dict [("DependsOn", .str "b")]])])
      (.dict [("Ref", .str "a")]) []).1,
   (c5_ref_dependson_identical_getatt_ignored ⟨["a", "b"], fun _ => true⟩
      (fun _ => rfl) (.dict [("Ref", .str "a"),
        ("Prop", .list [.dict [("DependsOn", .str "b")]])])
      (.dict [("Ref", .str "a")]) []).2⟩

end Heat
